import Mathlib

/-!
Shallow embedding of `src/splunk-iot-processor/index.js`, an AWS Lambda
function that forwards AWS IoT events to a Splunk HTTP event collector
(HEC) via the `splunk-logging` library, and proofs of the specification
claims about it.

JavaScript values are modelled by `JsValue`; objects are references into
an explicit `Heap` so that the in-place mutation performed by the
event formatter (`event.awsRequestId = ...`) is observable.  The
handler's externally visible behaviour (console logging, hook
installation, record submission, callback invocations) is modelled as a
trace of `Action`s.
-/

namespace SplunkIot

/-- A JavaScript value.  Objects (including `null`, which also has
`typeof === 'object'`) are modelled as follows: `jnull` is the `null`
value and `jref r` is a reference to a mutable object living in the
heap at address `r`.  Scalars carry their payload directly. -/
inductive JsValue where
  | jnull : JsValue
  | jundefined : JsValue
  | jbool : Bool → JsValue
  | jnum : Int → JsValue
  | jstr : String → JsValue
  | jref : Nat → JsValue
deriving DecidableEq

/-- A JavaScript object: an insertion-ordered list of own properties. -/
abbrev JsObject := List (String × JsValue)

/-- The mutable object heap.  Every address is totalised to an object;
addresses never written hold the empty object. -/
abbrev Heap := Nat → JsObject

/-- Write the object at address `r`. -/
def Heap.update (h : Heap) (r : Nat) (obj : JsObject) : Heap :=
  fun q => if q = r then obj else h q

/-- Errors surfaced by the embedded code: JavaScript `TypeError`s,
transport-level request errors, and application-level HEC errors
(non-zero `code` field in the collector response). -/
inductive JsError where
  | typeError : String → JsError
  | transportError : String → JsError
  | hecError : (text : String) → (code : Int) → JsError
deriving DecidableEq

/-- The Lambda invocation context: the fields the handler reads. -/
structure Context where
  awsRequestId : String
  functionName : String
deriving DecidableEq

/-- `typeof v === 'object'`: true exactly for `null` and object
references. -/
def typeofIsObject : JsValue → Bool
  | .jnull => true
  | .jref _ => true
  | _ => false

/-- First own property named `key`, if any (JS objects have unique
keys; the model tolerates duplicates by taking the first). -/
def lookupKey (obj : JsObject) (key : String) : Option JsValue :=
  match obj with
  | [] => none
  | (k, v) :: rest => if k = key then some v else lookupKey rest key

/-- Number of own properties named `key`. -/
def countKey (obj : JsObject) (key : String) : Nat :=
  match obj with
  | [] => 0
  | (k, _) :: rest => (if k = key then 1 else 0) + countKey rest key

/-- Own-property test on an object (a property present with value
`undefined` still counts as own). -/
def hasOwn (obj : JsObject) (key : String) : Bool :=
  (lookupKey obj key).isSome

/-- JS property assignment `obj[key] = v`: replaces the value in place
if the key is an own property, otherwise appends it. -/
def setOwn (obj : JsObject) (key : String) (v : JsValue) : JsObject :=
  if hasOwn obj key then
    obj.map (fun p => if p.1 = key then (key, v) else p)
  else obj ++ [(key, v)]

/-- `Object.prototype.hasOwnProperty.call(v, key)`: throws a
`TypeError` when `v` is `null` or `undefined` (they cannot be coerced
to an object); scalar primitives box to objects with no relevant own
properties. -/
def jsHasOwnPropertyCall (h : Heap) (v : JsValue) (key : String) :
    Except JsError Bool :=
  match v with
  | .jnull => .error (.typeError "Cannot convert undefined or null to object")
  | .jundefined => .error (.typeError "Cannot convert undefined or null to object")
  | .jref r => .ok (hasOwn (h r) key)
  | _ => .ok false

/-- `logger.eventFormatter` as installed by `configureLogger`
(index.js lines 73-80):

    logger.eventFormatter = (event) => {
        if (typeof event === 'object' &&
            !Object.prototype.hasOwnProperty.call(event, 'awsRequestId')) {
            event.awsRequestId = context.awsRequestId;
        }
        return event;
    };

The assignment mutates the caller's object in the heap; the returned
value is the (possibly mutated) event itself. -/
def eventFormatter (ctx : Context) (h : Heap) (event : JsValue) :
    Except JsError (Heap × JsValue) :=
  if typeofIsObject event then
    match jsHasOwnPropertyCall h event "awsRequestId" with
    | .error e => .error e
    | .ok true => .ok (h, event)
    | .ok false =>
      match event with
      | .jref r =>
        .ok (h.update r (setOwn (h r) "awsRequestId" (.jstr ctx.awsRequestId)),
             event)
      | _ => .ok (h, event)
  else
    .ok (h, event)

/-- The metadata object of the outbound record (index.js lines 49-55).
`time` and `index` are commented out in the source, hence `none`. -/
structure Metadata where
  host : String
  source : String
  sourcetype : String
  time : Option Int
  index : Option String
deriving DecidableEq

/-- The record passed to `logger.send` (index.js lines 47-56). -/
structure Record where
  message : JsValue
  metadata : Metadata
deriving DecidableEq

/-- Build the record submitted by the handler:

    logger.send({
        message: event,
        metadata: {
            host: 'serverless',
            source: `lambda:` + context.functionName,
            sourcetype: 'httpevent',
        },
    }); -/
def mkRecord (event : JsValue) (ctx : Context) : Record :=
  { message := event,
    metadata :=
      { host := "serverless",
        source := "lambda:" ++ ctx.functionName,
        sourcetype := "httpevent",
        time := none,
        index := none } }

/-- Parsed HEC response body, e.g. `\x7b text: 'Success', code: 0 \x7d`. -/
structure HecBody where
  text : String
  code : Int
deriving DecidableEq

/-- What the transport reports when the flush completes: an optional
request-level error and an optional parsed response body. -/
structure TransportOutcome where
  err : Option JsError
  body : Option HecBody
deriving DecidableEq

/-- Externally visible actions of one handler invocation, in order. -/
inductive Action where
  | logReceived : JsValue → Action
  | installFormatter : Action
  | installErrorHook : Action
  | send : Record → Action
  | flushCall : Action
  | logResponse : Option HecBody → Action
  | logError : JsError → JsValue → Action
  | callbackSuccess : JsValue → Action
  | callbackError : JsError → Action
deriving DecidableEq

/-- The conditional `err || (body && body.code !== 0)` of the handler's
flush callback (index.js line 61): a request-level error occurred, or a
(truthy) response body is present with a non-zero `code` field. -/
def isFailure (o : TransportOutcome) : Bool :=
  o.err.isSome || (match o.body with
                   | some b => decide (b.code ≠ 0)
                   | none => false)

/-- The handler's own flush completion callback (index.js lines 59-68):

    logger.flush((err, resp, body) => {
        if (err || (body && body.code !== 0)) {
            // If failed, error will be handled by pre-configured logger.error() below
        } else {
            console.log('Response from Splunk:', body);
            callback(null, event);
        }
    });

The `if` condition, `err || (body && body.code !== 0)`, is factored out
as `isFailure`; on failure the callback itself does nothing (the error
is handled by the pre-installed `logger.error`). -/
def flushCallback (event : JsValue) (o : TransportOutcome) : List Action :=
  if isFailure o then
    []
  else
    [.logResponse o.body, .callbackSuccess event]

/-- `logger.error` as installed by `configureLogger`
(index.js lines 83-86):

    logger.error = (error, payload) => {
        console.log('error', error, 'context', payload);
        callback(error);
    }; -/
def errorHook (e : JsError) (payload : JsValue) : List Action :=
  [.logError e payload, .callbackError e]

/-- The error the transport reports on a failed flush: the request
error if there was one, otherwise an application-level error built from
the response body. -/
def flushFailureError (o : TransportOutcome) : JsError :=
  match o.err with
  | some e => e
  | none =>
    match o.body with
    | some b => .hecError b.text b.code
    | none => .transportError "unknown"

/-- Modelled from the spec: the `splunk-logging` transport client is an
external dependency, not part of this repository's sources.  Per the
spec, on flush completion "any transport-level error (network, auth,
malformed endpoint) or a non-zero application-level status code from
the collector" is "surfaced identically through the single failure
path": the transport routes the error, together with the failing
payload, to the installed error hook before invoking the flush
completion callback; on success it invokes only the flush completion
callback. -/
def transportFlush (event : JsValue) (o : TransportOutcome) : List Action :=
  if isFailure o then
    errorHook (flushFailureError o) event ++ flushCallback event o
  else
    flushCallback event o

/-- Result of one handler invocation: final heap, action trace, and the
exception the handler threw, if any. -/
structure HandlerResult where
  heap : Heap
  trace : List Action
  thrown : Option JsError

/-- `exports.handler` (index.js lines 37-69): log the inbound event,
install the per-invocation hooks (`configureLogger`), submit the record
(which applies the event formatter, mutating the event in the heap, and
throws if the formatter throws), then flush; the transport completes
the flush with outcome `o`. -/
def handlerRun (h : Heap) (event : JsValue) (ctx : Context)
    (o : TransportOutcome) : HandlerResult :=
  let pre : List Action :=
    [.logReceived event, .installFormatter, .installErrorHook]
  match eventFormatter ctx h event with
  | .error e => { heap := h, trace := pre, thrown := some e }
  | .ok (h2, _) =>
    { heap := h2,
      trace := pre ++ [.send (mkRecord event ctx), .flushCall]
                   ++ transportFlush event o,
      thrown := none }

/-- The process-wide transport configuration. -/
structure LoggerConfig where
  url : Option String
  token : Option String
  maxBatchCount : Nat
  maxRetries : Nat
deriving DecidableEq

/-- `loggerConfig` (index.js lines 26-31): URL and token come from the
environment; `maxBatchCount: 0` (manually flush events),
`maxRetries: 3` (retry 3 times). -/
def loggerConfig (url token : Option String) : LoggerConfig :=
  { url := url,
    token := token,
    maxBatchCount := 0,
    maxRetries := 3 }

/-! ## Helper lemmas -/

theorem lookupKey_append_of_none (a b : JsObject) (key : String)
    (h : lookupKey a key = none) :
    lookupKey (a ++ b) key = lookupKey b key := by
  induction a with
  | nil => simp
  | cons p rest ih =>
    obtain ⟨k, v⟩ := p
    by_cases hk : k = key
    · simp [lookupKey, hk] at h
    · simp [lookupKey, hk] at h ⊢
      exact ih h

theorem countKey_append (a b : JsObject) (key : String) :
    countKey (a ++ b) key = countKey a key + countKey b key := by
  induction a with
  | nil => simp [countKey]
  | cons p rest ih =>
    obtain ⟨k, v⟩ := p
    by_cases hk : k = key
    · simp [countKey, hk, ih]
      omega
    · simp [countKey, hk, ih]

theorem countKey_eq_zero_of_lookupKey_none (a : JsObject) (key : String)
    (h : lookupKey a key = none) : countKey a key = 0 := by
  induction a with
  | nil => simp [countKey]
  | cons p rest ih =>
    obtain ⟨k, v⟩ := p
    by_cases hk : k = key
    · simp [lookupKey, hk] at h
    · simp [lookupKey, hk] at h
      simp [countKey, hk, ih h]

/-! ## Claims about the event formatter -/

/-- Claim C3: for every structured (object) input event that lacks the
`awsRequestId` field, after the event formatter runs the outbound
record's payload contains exactly one `awsRequestId` field whose value
equals the invocation context's tracing id. -/
theorem formatter_adds_tracing_id (h : Heap) (ctx : Context) (r : Nat)
    (hm : lookupKey (h r) "awsRequestId" = none) :
    ∃ h2, eventFormatter ctx h (.jref r) = .ok (h2, .jref r) ∧
      countKey (h2 r) "awsRequestId" = 1 ∧
      lookupKey (h2 r) "awsRequestId" = some (.jstr ctx.awsRequestId) := by
  have hho : hasOwn (h r) "awsRequestId" = false := by simp [hasOwn, hm]
  refine ⟨Heap.update h r (setOwn (h r) "awsRequestId" (.jstr ctx.awsRequestId)),
    ?_, ?_, ?_⟩
  · simp [eventFormatter, typeofIsObject, jsHasOwnPropertyCall, hho]
  · simp [Heap.update, setOwn, hho, countKey_append,
      countKey_eq_zero_of_lookupKey_none _ _ hm, countKey]
  · simp [Heap.update, setOwn, hho, lookupKey_append_of_none _ _ _ hm, lookupKey]

/-- Claim C3 witness: a concrete run on an event object lacking the
field. -/
theorem formatter_adds_tracing_id_witness :
    ∃ h2, eventFormatter ⟨"req-1", "fn"⟩ (fun _ => [("a", .jnum 1)]) (.jref 0)
        = .ok (h2, .jref 0) ∧
      countKey (h2 0) "awsRequestId" = 1 ∧
      lookupKey (h2 0) "awsRequestId" = some (.jstr "req-1") :=
  formatter_adds_tracing_id (fun _ => [("a", .jnum 1)]) ⟨"req-1", "fn"⟩ 0 (by decide)

/-- Claim C4: for every structured input event that already contains
the `awsRequestId` field, the event formatter leaves the object (hence
that field's value) unchanged; and applying the formatter a second time
to the result of a first application changes nothing (idempotent
augmentation). -/
theorem formatter_idempotent (h : Heap) (ctx : Context) (r : Nat) :
    (hasOwn (h r) "awsRequestId" = true →
      eventFormatter ctx h (.jref r) = .ok (h, .jref r)) ∧
    (∀ h2 v, eventFormatter ctx h (.jref r) = .ok (h2, v) →
      eventFormatter ctx h2 v = .ok (h2, v)) := by
  constructor
  · intro hho
    simp [eventFormatter, typeofIsObject, jsHasOwnPropertyCall, hho]
  · intro h2 v hv
    by_cases hho : hasOwn (h r) "awsRequestId"
    · simp [eventFormatter, typeofIsObject, jsHasOwnPropertyCall, hho] at hv
      obtain ⟨rfl, rfl⟩ := hv
      simp [eventFormatter, typeofIsObject, jsHasOwnPropertyCall, hho]
    · simp [eventFormatter, typeofIsObject, jsHasOwnPropertyCall, hho] at hv
      obtain ⟨rfl, rfl⟩ := hv
      have hnone : lookupKey (h r) "awsRequestId" = none :=
        Option.not_isSome_iff_eq_none.mp (by simpa [hasOwn] using hho)
      have hnew : hasOwn
          ((Heap.update h r
            (setOwn (h r) "awsRequestId" (.jstr ctx.awsRequestId))) r)
          "awsRequestId" = true := by
        simp [Heap.update, setOwn, hasOwn, hnone,
          lookupKey_append_of_none _ _ _ hnone, lookupKey]
      simp [eventFormatter, typeofIsObject, jsHasOwnPropertyCall, hnew]

/-- Claim C4 witness: concrete runs for both conjuncts. -/
theorem formatter_idempotent_witness :
    eventFormatter ⟨"req-2", "fn"⟩ (fun _ => [("awsRequestId", .jstr "old")])
        (.jref 0)
      = .ok ((fun _ => [("awsRequestId", .jstr "old")]), .jref 0) :=
  (formatter_idempotent (fun _ => [("awsRequestId", .jstr "old")])
    ⟨"req-2", "fn"⟩ 0).1 (by decide)

/-- Claim C5: for every non-structured (scalar) input event, the event
formatter attempts no augmentation and returns the event unchanged,
with the heap untouched and no exception. -/
theorem formatter_scalar_unchanged (h : Heap) (ctx : Context) (v : JsValue)
    (hs : typeofIsObject v = false) :
    eventFormatter ctx h v = .ok (h, v) := by
  simp [eventFormatter, hs]

/-- Claim C5 witness: a concrete scalar event. -/
theorem formatter_scalar_unchanged_witness :
    eventFormatter ⟨"req-3", "fn"⟩ (fun _ => []) (.jnum 5)
      = .ok ((fun _ => []), .jnum 5) :=
  formatter_scalar_unchanged (fun _ => []) ⟨"req-3", "fn"⟩ (.jnum 5) rfl

/-- Claim C9: for the input event `null` (which has JavaScript type
`object`), the has-own-property check throws a `TypeError`, so the
handler throws instead of completing: it never invokes the completion
callback with a success result. -/
theorem null_event_handler_throws (h : Heap) (ctx : Context)
    (o : TransportOutcome) :
    (handlerRun h .jnull ctx o).thrown =
      some (.typeError "Cannot convert undefined or null to object") ∧
    ∀ v, Action.callbackSuccess v ∉ (handlerRun h .jnull ctx o).trace := by
  constructor
  · simp [handlerRun, eventFormatter, typeofIsObject, jsHasOwnPropertyCall]
  · intro v
    simp [handlerRun, eventFormatter, typeofIsObject, jsHasOwnPropertyCall]

/-! ## Trace helper lemmas -/

theorem eventFormatter_ok_of_ne_null (ctx : Context) (h : Heap) (v : JsValue)
    (hv : v ≠ .jnull) :
    ∃ h2 w, eventFormatter ctx h v = .ok (h2, w) := by
  cases v with
  | jnull => exact absurd rfl hv
  | jref r =>
    by_cases hho : hasOwn (h r) "awsRequestId"
    · exact ⟨h, .jref r,
        by simp [eventFormatter, typeofIsObject, jsHasOwnPropertyCall, hho]⟩
    · exact ⟨Heap.update h r
          (setOwn (h r) "awsRequestId" (.jstr ctx.awsRequestId)), .jref r,
        by simp [eventFormatter, typeofIsObject, jsHasOwnPropertyCall, hho]⟩
  | jundefined => exact ⟨h, .jundefined, by simp [eventFormatter, typeofIsObject]⟩
  | jbool b => exact ⟨h, .jbool b, by simp [eventFormatter, typeofIsObject]⟩
  | jnum n => exact ⟨h, .jnum n, by simp [eventFormatter, typeofIsObject]⟩
  | jstr s => exact ⟨h, .jstr s, by simp [eventFormatter, typeofIsObject]⟩

theorem transportFlush_of_success (event : JsValue) (o : TransportOutcome)
    (hf : isFailure o = false) :
    transportFlush event o = [.logResponse o.body, .callbackSuccess event] := by
  simp [transportFlush, flushCallback, hf]

theorem transportFlush_of_failure (event : JsValue) (o : TransportOutcome)
    (hf : isFailure o = true) :
    transportFlush event o =
      [.logError (flushFailureError o) event,
       .callbackError (flushFailureError o)] := by
  simp [transportFlush, flushCallback, errorHook, hf]

theorem handlerRun_trace_of_error (h : Heap) (event : JsValue) (ctx : Context)
    (o : TransportOutcome) (e : JsError)
    (he : eventFormatter ctx h event = .error e) :
    (handlerRun h event ctx o).trace =
      [.logReceived event, .installFormatter, .installErrorHook] := by
  simp [handlerRun, he]

theorem handlerRun_trace_of_ok (h : Heap) (event : JsValue) (ctx : Context)
    (o : TransportOutcome) (h2 : Heap) (w : JsValue)
    (hok : eventFormatter ctx h event = .ok (h2, w)) :
    (handlerRun h event ctx o).trace =
      [.logReceived event, .installFormatter, .installErrorHook,
       .send (mkRecord event ctx), .flushCall] ++ transportFlush event o := by
  simp [handlerRun, hok]

theorem isFailure_false_of_code_zero (o : TransportOutcome) (b : HecBody)
    (herr : o.err = none) (hbody : o.body = some b) (hcode : b.code = 0) :
    isFailure o = false := by
  simp [isFailure, herr, hbody, hcode]

/-! ## Claims about the handler's completion behaviour -/

/-- Claim C1: for every invocation where the transport flush completes
with no transport error and a response body whose `code` field equals
0, the handler invokes the completion callback with no error and the
original input event as its result (and never with an error). -/
theorem flush_success_invokes_callback (h : Heap) (event : JsValue)
    (ctx : Context) (o : TransportOutcome) (b : HecBody)
    (hne : event ≠ .jnull) (herr : o.err = none) (hbody : o.body = some b)
    (hcode : b.code = 0) :
    Action.callbackSuccess event ∈ (handlerRun h event ctx o).trace ∧
    ∀ e, Action.callbackError e ∉ (handlerRun h event ctx o).trace := by
  obtain ⟨h2, w, hok⟩ := eventFormatter_ok_of_ne_null ctx h event hne
  have hf : isFailure o = false := by simp [isFailure, herr, hbody, hcode]
  have ht : (handlerRun h event ctx o).trace =
      [.logReceived event, .installFormatter, .installErrorHook,
       .send (mkRecord event ctx), .flushCall,
       .logResponse o.body, .callbackSuccess event] := by
    rw [handlerRun_trace_of_ok h event ctx o h2 w hok,
      transportFlush_of_success event o hf]
    rfl
  rw [ht]
  constructor
  · simp
  · intro e
    simp

/-- Claim C1 witness: a concrete successful invocation. -/
theorem flush_success_invokes_callback_witness :
    Action.callbackSuccess (.jnum 7) ∈
      (handlerRun (fun _ => []) (.jnum 7) ⟨"req-4", "fn"⟩
        ⟨none, some ⟨"Success", 0⟩⟩).trace ∧
    ∀ e, Action.callbackError e ∉
      (handlerRun (fun _ => []) (.jnum 7) ⟨"req-4", "fn"⟩
        ⟨none, some ⟨"Success", 0⟩⟩).trace :=
  flush_success_invokes_callback (fun _ => []) (.jnum 7) ⟨"req-4", "fn"⟩
    ⟨none, some ⟨"Success", 0⟩⟩ ⟨"Success", 0⟩ (by decide) rfl rfl rfl

/-- Claim C2: for every invocation where the transport flush completes
with no transport error but a response body whose `code` field is
non-zero, the completion callback is invoked with an error and is never
invoked with a success result. -/
theorem flush_hec_error_invokes_error_callback (h : Heap) (event : JsValue)
    (ctx : Context) (o : TransportOutcome) (b : HecBody)
    (hne : event ≠ .jnull) (herr : o.err = none) (hbody : o.body = some b)
    (hcode : b.code ≠ 0) :
    Action.callbackError (.hecError b.text b.code) ∈
      (handlerRun h event ctx o).trace ∧
    ∀ v, Action.callbackSuccess v ∉ (handlerRun h event ctx o).trace := by
  obtain ⟨h2, w, hok⟩ := eventFormatter_ok_of_ne_null ctx h event hne
  have hf : isFailure o = true := by simp [isFailure, herr, hbody, hcode]
  have hfe : flushFailureError o = .hecError b.text b.code := by
    simp [flushFailureError, herr, hbody]
  have ht : (handlerRun h event ctx o).trace =
      [.logReceived event, .installFormatter, .installErrorHook,
       .send (mkRecord event ctx), .flushCall,
       .logError (.hecError b.text b.code) event,
       .callbackError (.hecError b.text b.code)] := by
    rw [handlerRun_trace_of_ok h event ctx o h2 w hok,
      transportFlush_of_failure event o hf, hfe]
    rfl
  rw [ht]
  constructor
  · simp
  · intro v
    simp

/-- Claim C2 witness: a concrete invocation where the collector answers
with code 1 and no transport error. -/
theorem flush_hec_error_invokes_error_callback_witness :
    Action.callbackError (.hecError "Invalid token" 1) ∈
      (handlerRun (fun _ => []) (.jnum 8) ⟨"req-7", "fn"⟩
        ⟨none, some ⟨"Invalid token", 1⟩⟩).trace ∧
    ∀ v, Action.callbackSuccess v ∉
      (handlerRun (fun _ => []) (.jnum 8) ⟨"req-7", "fn"⟩
        ⟨none, some ⟨"Invalid token", 1⟩⟩).trace :=
  flush_hec_error_invokes_error_callback (fun _ => []) (.jnum 8)
    ⟨"req-7", "fn"⟩ ⟨none, some ⟨"Invalid token", 1⟩⟩ ⟨"Invalid token", 1⟩
    (by decide) rfl rfl (by decide)

/-- Claim C10: the tracing-id augmentation mutates the caller's event
object in place: on the success path the value echoed through the
completion callback is the same object reference as the input event,
and for a structured event that lacked the `awsRequestId` field, the
object behind that reference now carries the added field. -/
theorem success_echoes_mutated_object (h : Heap) (ctx : Context) (r : Nat)
    (o : TransportOutcome) (b : HecBody)
    (herr : o.err = none) (hbody : o.body = some b) (hcode : b.code = 0)
    (hm : lookupKey (h r) "awsRequestId" = none) :
    Action.callbackSuccess (.jref r) ∈ (handlerRun h (.jref r) ctx o).trace ∧
    lookupKey ((handlerRun h (.jref r) ctx o).heap r) "awsRequestId"
      = some (.jstr ctx.awsRequestId) := by
  have hho : hasOwn (h r) "awsRequestId" = false := by simp [hasOwn, hm]
  have hok : eventFormatter ctx h (.jref r) =
      .ok (Heap.update h r (setOwn (h r) "awsRequestId" (.jstr ctx.awsRequestId)),
           .jref r) := by
    simp [eventFormatter, typeofIsObject, jsHasOwnPropertyCall, hho]
  have hf : isFailure o = false := by simp [isFailure, herr, hbody, hcode]
  constructor
  · rw [handlerRun_trace_of_ok h (.jref r) ctx o _ _ hok,
      transportFlush_of_success (.jref r) o hf]
    simp
  · simp [handlerRun, hok, Heap.update, setOwn, hho,
      lookupKey_append_of_none _ _ _ hm, lookupKey]

/-- Claim C10 witness: a concrete successful invocation on an object
event lacking the field. -/
theorem success_echoes_mutated_object_witness :
    Action.callbackSuccess (.jref 0) ∈
      (handlerRun (fun _ => [("temp", .jnum 42)]) (.jref 0) ⟨"req-8", "fn"⟩
        ⟨none, some ⟨"Success", 0⟩⟩).trace ∧
    lookupKey ((handlerRun (fun _ => [("temp", .jnum 42)]) (.jref 0)
        ⟨"req-8", "fn"⟩ ⟨none, some ⟨"Success", 0⟩⟩).heap 0) "awsRequestId"
      = some (.jstr "req-8") :=
  success_echoes_mutated_object (fun _ => [("temp", .jnum 42)])
    ⟨"req-8", "fn"⟩ 0 ⟨none, some ⟨"Success", 0⟩⟩ ⟨"Success", 0⟩
    rfl rfl rfl (by decide)

/-! ## Claims about the outbound record, ordering, and configuration -/

theorem send_not_mem_transportFlush (event : JsValue) (o : TransportOutcome)
    (rcd : Record) : Action.send rcd ∉ transportFlush event o := by
  unfold transportFlush flushCallback errorHook
  split <;> simp

/-- Claim C6: for every invocation and every input event, every record
submitted to the transport has metadata with host `"serverless"`,
sourcetype `"httpevent"`, source `"lambda:"` ++ the invoking function's
name, and `time` and `index` not set. -/
theorem record_metadata_fixed (h : Heap) (event : JsValue) (ctx : Context)
    (o : TransportOutcome) (rcd : Record)
    (hsend : Action.send rcd ∈ (handlerRun h event ctx o).trace) :
    rcd.metadata =
      { host := "serverless", source := "lambda:" ++ ctx.functionName,
        sourcetype := "httpevent", time := none, index := none } := by
  have hr : rcd = mkRecord event ctx := by
    rcases hfmt : eventFormatter ctx h event with e | p
    · rw [handlerRun_trace_of_error h event ctx o e hfmt] at hsend
      simp at hsend
    · obtain ⟨h2, w⟩ := p
      rw [handlerRun_trace_of_ok h event ctx o h2 w hfmt] at hsend
      simp at hsend
      rcases hsend with hr | hmem
      · exact hr
      · exact absurd hmem (send_not_mem_transportFlush event o rcd)
  subst hr
  rfl

/-- Claim C6 witness: the record of a concrete invocation. -/
theorem record_metadata_fixed_witness :
    (mkRecord (.jnum 1) ⟨"req-5", "myFn"⟩).metadata =
      { host := "serverless", source := "lambda:" ++ "myFn",
        sourcetype := "httpevent", time := none, index := none } :=
  record_metadata_fixed (fun _ => []) (.jnum 1) ⟨"req-5", "myFn"⟩
    ⟨none, some ⟨"Success", 0⟩⟩ (mkRecord (.jnum 1) ⟨"req-5", "myFn"⟩)
    (by decide)

theorem get?_of_three {α : Type} (a0 a1 a2 : α) (i : Nat) (x : α)
    (hi : [a0, a1, a2].get? i = some x) :
    (i = 0 ∧ x = a0) ∨ (i = 1 ∧ x = a1) ∨ (i = 2 ∧ x = a2) := by
  rcases i with _ | _ | _ | i <;> simp_all

theorem get?_of_seven {α : Type} (a0 a1 a2 a3 a4 a5 a6 : α) (i : Nat) (x : α)
    (hi : [a0, a1, a2, a3, a4, a5, a6].get? i = some x) :
    (i = 0 ∧ x = a0) ∨ (i = 1 ∧ x = a1) ∨ (i = 2 ∧ x = a2) ∨
    (i = 3 ∧ x = a3) ∨ (i = 4 ∧ x = a4) ∨ (i = 5 ∧ x = a5) ∨
    (i = 6 ∧ x = a6) := by
  rcases i with _ | _ | _ | _ | _ | _ | _ | i <;> simp_all

/-- Claim C7: in every invocation the payload-augmentation hook and the
error-handling hook are installed (in the trace positions right after
the initial console log) before any record is submitted, and whenever
the completion callback is invoked with an error, that error together
with the failing payload was written to the logging sink at an earlier
trace position. -/
theorem hooks_before_send_and_log_before_error_callback (h : Heap)
    (event : JsValue) (ctx : Context) (o : TransportOutcome) :
    (handlerRun h event ctx o).trace.get? 1 = some .installFormatter ∧
    (handlerRun h event ctx o).trace.get? 2 = some .installErrorHook ∧
    (∀ i rcd, (handlerRun h event ctx o).trace.get? i = some (.send rcd) →
      2 < i) ∧
    (∀ i e, (handlerRun h event ctx o).trace.get? i =
        some (.callbackError e) →
      ∃ j payload, j < i ∧
        (handlerRun h event ctx o).trace.get? j =
          some (.logError e payload)) := by
  rcases hfmt : eventFormatter ctx h event with e0 | p
  · have ht := handlerRun_trace_of_error h event ctx o e0 hfmt
    rw [ht]
    refine ⟨rfl, rfl, ?_, ?_⟩
    · intro i rcd hi
      rcases get?_of_three _ _ _ i _ hi with ⟨_, hx⟩ | ⟨_, hx⟩ | ⟨_, hx⟩ <;>
        simp at hx
    · intro i e hi
      rcases get?_of_three _ _ _ i _ hi with ⟨_, hx⟩ | ⟨_, hx⟩ | ⟨_, hx⟩ <;>
        simp at hx
  · obtain ⟨h2, w⟩ := p
    have htok := handlerRun_trace_of_ok h event ctx o h2 w hfmt
    by_cases hf : isFailure o
    · have ht : (handlerRun h event ctx o).trace =
          [.logReceived event, .installFormatter, .installErrorHook,
           .send (mkRecord event ctx), .flushCall,
           .logError (flushFailureError o) event,
           .callbackError (flushFailureError o)] := by
        rw [htok, transportFlush_of_failure event o hf]
        rfl
      rw [ht]
      refine ⟨rfl, rfl, ?_, ?_⟩
      · intro i rcd hi
        rcases get?_of_seven _ _ _ _ _ _ _ i _ hi with
          ⟨_, hx⟩ | ⟨hI, hx⟩ | ⟨hI, hx⟩ | ⟨hI, hx⟩ | ⟨hI, hx⟩ | ⟨hI, hx⟩ |
            ⟨hI, hx⟩
        · simp at hx
        · simp at hx
        · simp at hx
        · omega
        · omega
        · omega
        · omega
      · intro i e hi
        rcases get?_of_seven _ _ _ _ _ _ _ i _ hi with
          ⟨_, hx⟩ | ⟨hI, hx⟩ | ⟨hI, hx⟩ | ⟨hI, hx⟩ | ⟨hI, hx⟩ | ⟨hI, hx⟩ |
            ⟨hI, hx⟩
        · simp at hx
        · simp at hx
        · simp at hx
        · simp at hx
        · simp at hx
        · simp at hx
        · simp at hx
          exact ⟨5, event, by omega, by simp [hx]⟩
    · have ht : (handlerRun h event ctx o).trace =
          [.logReceived event, .installFormatter, .installErrorHook,
           .send (mkRecord event ctx), .flushCall,
           .logResponse o.body, .callbackSuccess event] := by
        rw [htok, transportFlush_of_success event o (by simpa using hf)]
        rfl
      rw [ht]
      refine ⟨rfl, rfl, ?_, ?_⟩
      · intro i rcd hi
        rcases get?_of_seven _ _ _ _ _ _ _ i _ hi with
          ⟨_, hx⟩ | ⟨hI, hx⟩ | ⟨hI, hx⟩ | ⟨hI, hx⟩ | ⟨hI, hx⟩ | ⟨hI, hx⟩ |
            ⟨hI, hx⟩
        · simp at hx
        · simp at hx
        · simp at hx
        · omega
        · omega
        · omega
        · omega
      · intro i e hi
        rcases get?_of_seven _ _ _ _ _ _ _ i _ hi with
          ⟨_, hx⟩ | ⟨hI, hx⟩ | ⟨hI, hx⟩ | ⟨hI, hx⟩ | ⟨hI, hx⟩ | ⟨hI, hx⟩ |
            ⟨hI, hx⟩ <;>
          simp at hx

/-- Claim C7 witness: a concrete failing invocation in which the hooks
are installed at position 1 and the diagnostic log entry precedes the
error callback at position 6. -/
theorem hooks_before_send_witness :
    (handlerRun (fun _ => []) (.jnum 2) ⟨"req-6", "fn"⟩
        ⟨some (.transportError "econnrefused"), none⟩).trace.get? 1
      = some .installFormatter ∧
    ∃ j payload, j < 6 ∧
      (handlerRun (fun _ => []) (.jnum 2) ⟨"req-6", "fn"⟩
          ⟨some (.transportError "econnrefused"), none⟩).trace.get? j
        = some (.logError (.transportError "econnrefused") payload) :=
  ⟨(hooks_before_send_and_log_before_error_callback (fun _ => []) (.jnum 2)
      ⟨"req-6", "fn"⟩ ⟨some (.transportError "econnrefused"), none⟩).1,
   (hooks_before_send_and_log_before_error_callback (fun _ => []) (.jnum 2)
      ⟨"req-6", "fn"⟩ ⟨some (.transportError "econnrefused"), none⟩).2.2.2 6
      (.transportError "econnrefused") (by decide)⟩

/-- Claim C8 counterexample: the configuration does not set the batch
size to 1 — `maxBatchCount` is 0 (manual flushing). -/
theorem loggerConfig_batch_count_not_one :
    ¬ (loggerConfig none none).maxBatchCount = 1 := by decide

/-- Claim C8 (amended): the process-wide transport configuration, fixed
once at process start, sets the retry count to 3 and `maxBatchCount` to
0 — events are never auto-batched but flushed manually, once per
invocation, so there is still no buffering across invocations. -/
theorem loggerConfig_constants (url token : Option String) :
    (loggerConfig url token).maxRetries = 3 ∧
    (loggerConfig url token).maxBatchCount = 0 :=
  ⟨rfl, rfl⟩

end SplunkIot
